import Mathlib

/-!
Verification development for the TPM unseal core of the booster repository.

The repository ships two structurally similar revisions of the same module:

* `Rev1` models `src/init/tpm.go`;
* `Rev2` models `src/unnamed/part_001` (the later revision, which adds
  `getSRKTemplate` and a PBKDF2-based authorization derivation).

Module interaction (`go-tpm` calls) is embedded as a deterministic
interpreter over an oracle `TPMBehavior` that fixes the outcome of each
module command, together with an explicit handle-allocation state and a
trace of the commands issued.  Host-side cryptography (SHA-256, HMAC,
PBKDF2 as implemented by `golang.org/x/crypto/pbkdf2`, standard base64)
is embedded directly as executable functions on byte lists.
-/

/-- Byte strings are lists of naturals; every byte produced by the
functions below is below 256. -/
abbrev Bytes := List Nat

/-- Pointwise xor of two byte strings, truncating to the shorter one
(the Go loop `for x := range U : T[x] ^= U[x]` over equal-length slices). -/
def zipXor (a b : Bytes) : Bytes := List.zipWith (fun x y => x ^^^ y) a b

/-- Big-endian 4-byte encoding of a 32-bit integer, as produced by the
`buf[0] = byte(block >> 24); ...` sequence in `pbkdf2.Key`. -/
def be32 (n : Nat) : Bytes :=
  [(n >>> 24) % 256, (n >>> 16) % 256, (n >>> 8) % 256, n % 256]

/-- Big-endian 8-byte encoding of a 64-bit integer (SHA-256 length field). -/
def be64 (n : Nat) : Bytes :=
  [(n >>> 56) % 256, (n >>> 48) % 256, (n >>> 40) % 256, (n >>> 32) % 256,
   (n >>> 24) % 256, (n >>> 16) % 256, (n >>> 8) % 256, n % 256]

/-- Right rotation of a 32-bit word. -/
def rotr32 (n x : Nat) : Nat :=
  ((x >>> n) ||| (x <<< (32 - n))) % 4294967296

/-- The SHA-256 round constants (FIPS 180-4, written in decimal). -/
def sha256K : List Nat :=
  [1116352408, 1899447441, 3049323471, 3921009573, 961987163,
   1508970993, 2453635748, 2870763221, 3624381080, 310598401,
   607225278, 1426881987, 1925078388, 2162078206, 2614888103,
   3248222580, 3835390401, 4022224774, 264347078, 604807628,
   770255983, 1249150122, 1555081692, 1996064986, 2554220882,
   2821834349, 2952996808, 3210313671, 3336571891, 3584528711,
   113926993, 338241895, 666307205, 773529912, 1294757372,
   1396182291, 1695183700, 1986661051, 2177026350, 2456956037,
   2730485921, 2820302411, 3259730800, 3345764771, 3516065817,
   3600352804, 4094571909, 275423344, 430227734, 506948616,
   659060556, 883997877, 958139571, 1322822218, 1537002063,
   1747873779, 1955562222, 2024104815, 2227730452, 2361852424,
   2428436474, 2756734187, 3204031479, 3329325298]

/-- The eight 32-bit working registers of the SHA-256 compression function. -/
structure Sha256State where
  a : Nat
  b : Nat
  c : Nat
  d : Nat
  e : Nat
  f : Nat
  g : Nat
  h : Nat
deriving DecidableEq, Repr

/-- Initial SHA-256 chaining value (FIPS 180-4, written in decimal). -/
def sha256Init : Sha256State :=
  ⟨1779033703, 3144134277, 1013904242, 2773480762,
   1359893119, 2600822924, 528734635, 1541459225⟩

/-- Big-endian packing of consecutive 4-byte groups into 32-bit words. -/
def bytesToWords : Bytes → List Nat
  | b0 :: b1 :: b2 :: b3 :: rest =>
      ((((b0 <<< 8) ||| b1) <<< 8 ||| b2) <<< 8 ||| b3) :: bytesToWords rest
  | _ => []

/-- Splitting a word list into 16-word blocks, driven by a fuel argument. -/
def blocksOfF : Nat → List Nat → List (List Nat)
  | 0, _ => []
  | _ + 1, [] => []
  | fuel + 1, ws => ws.take 16 :: blocksOfF fuel (ws.drop 16)

/-- Splitting a word list into 16-word blocks. -/
def blocksOf (ws : List Nat) : List (List Nat) := blocksOfF ws.length ws

/-- Message-schedule extension: appends words until the schedule holds 64,
using the standard small-sigma recurrences. -/
def sha256Schedule : Nat → List Nat → List Nat
  | 0, ws => ws
  | fuel + 1, ws =>
      if ws.length ≥ 64 then ws
      else
        let i := ws.length
        let w15 := ws.getD (i - 15) 0
        let w2 := ws.getD (i - 2) 0
        let w16 := ws.getD (i - 16) 0
        let w7 := ws.getD (i - 7) 0
        let s0 := (rotr32 7 w15) ^^^ (rotr32 18 w15) ^^^ (w15 >>> 3)
        let s1 := (rotr32 17 w2) ^^^ (rotr32 19 w2) ^^^ (w2 >>> 10)
        sha256Schedule fuel (ws ++ [(w16 + s0 + w7 + s1) % 4294967296])

/-- One SHA-256 round, consuming a pair of a round constant and a
schedule word. -/
def sha256Round (st : Sha256State) (kw : Nat × Nat) : Sha256State :=
  let s1 := (rotr32 6 st.e) ^^^ (rotr32 11 st.e) ^^^ (rotr32 25 st.e)
  let ch := (st.e &&& st.f) ^^^ ((st.e ^^^ 0xffffffff) &&& st.g)
  let t1 := (st.h + s1 + ch + kw.1 + kw.2) % 4294967296
  let s0 := (rotr32 2 st.a) ^^^ (rotr32 13 st.a) ^^^ (rotr32 22 st.a)
  let maj := (st.a &&& st.b) ^^^ (st.a &&& st.c) ^^^ (st.b &&& st.c)
  let t2 := (s0 + maj) % 4294967296
  ⟨(t1 + t2) % 4294967296, st.a, st.b, st.c, (st.d + t1) % 4294967296, st.e, st.f, st.g⟩

/-- Compression of one 512-bit block into the chaining state. -/
def sha256Compress (st : Sha256State) (block : List Nat) : Sha256State :=
  let w := sha256Schedule 48 block
  let r := (sha256K.zip w).foldl sha256Round st
  ⟨(st.a + r.a) % 4294967296, (st.b + r.b) % 4294967296,
   (st.c + r.c) % 4294967296, (st.d + r.d) % 4294967296,
   (st.e + r.e) % 4294967296, (st.f + r.f) % 4294967296,
   (st.g + r.g) % 4294967296, (st.h + r.h) % 4294967296⟩

/-- Number of zero padding bytes between the 0x80 marker and the 8-byte
length field, bringing the total to a multiple of 64. -/
def sha256PadZeros (len : Nat) : Nat := (64 - ((len + 9) % 64)) % 64

/-- Big-endian 4-byte expansion of a 32-bit word. -/
def wordBytes (w : Nat) : Bytes :=
  [(w >>> 24) % 256, (w >>> 16) % 256, (w >>> 8) % 256, w % 256]

/-- SHA-256 of a byte string. -/
def sha256 (msg : Bytes) : Bytes :=
  let padded := msg ++ [128] ++ List.replicate (sha256PadZeros msg.length) 0
                  ++ be64 (8 * msg.length)
  let fin := (blocksOf (bytesToWords padded)).foldl sha256Compress sha256Init
  wordBytes fin.a ++ wordBytes fin.b ++ wordBytes fin.c ++ wordBytes fin.d ++
  wordBytes fin.e ++ wordBytes fin.f ++ wordBytes fin.g ++ wordBytes fin.h

/-- HMAC-SHA-256, with the standard 64-byte block size: this is the PRF
instance that `hmac.New(sha256.New, password)` builds inside `pbkdf2.Key`. -/
def hmacSha256 (key msg : Bytes) : Bytes :=
  let k1 := if key.length > 64 then sha256 key else key
  let k0 := k1 ++ List.replicate (64 - k1.length) 0
  let ipad := k0.map (fun b => b ^^^ 0x36)
  let opad := k0.map (fun b => b ^^^ 0x5c)
  sha256 (opad ++ sha256 (ipad ++ msg))

theorem sha256_length (msg : Bytes) : (sha256 msg).length = 32 := by
  simp [sha256, wordBytes]

theorem hmacSha256_length (key msg : Bytes) : (hmacSha256 key msg).length = 32 := by
  simp [hmacSha256, sha256_length]

/-- Inner loop of `pbkdf2.Key` from `golang.org/x/crypto/pbkdf2`: starting
from the block accumulator `t` and the previous `u`, performs the
remaining `n` iterations `u := prf u; t := t xor u`. -/
def pbkdf2Inner (prf : Bytes → Bytes) : Nat → Bytes → Bytes → Bytes
  | 0, t, _ => t
  | n + 1, t, u =>
      let u2 := prf u
      pbkdf2Inner prf n (zipXor t u2) u2

/-- One output block of `pbkdf2.Key`: `u1 = prf (salt || be32 block)`,
then `iter - 1` further iterations xored into the accumulator. -/
def pbkdf2Block (prf : Bytes → Bytes) (salt : Bytes) (iter blockIdx : Nat) : Bytes :=
  let u1 := prf (salt ++ be32 blockIdx)
  pbkdf2Inner prf (iter - 1) u1 u1

/-- The derived key of `pbkdf2.Key(password, salt, iter, keyLen, h)`, with
`prf` the HMAC instance keyed on the password and `hashLen` its output
size: `numBlocks = (keyLen + hashLen - 1) / hashLen` blocks, concatenated
and truncated to `keyLen`. -/
def pbkdf2Key (prf : Bytes → Bytes) (hashLen : Nat) (salt : Bytes) (iter keyLen : Nat) : Bytes :=
  (((List.range ((keyLen + hashLen - 1) / hashLen)).map
      (fun i => pbkdf2Block prf salt iter (i + 1))).flatten).take keyLen

/-- The RFC 2898 iterate sequence, written from the specification text:
`U_1 = PRF(P, S || INT(i))` and `U_(j+1) = PRF(P, U_j)`; index `j` here
denotes `U_(j+1)`. -/
def pbkdf2SpecU (password salt : Bytes) (i : Nat) : Nat → Bytes
  | 0 => hmacSha256 password (salt ++ be32 i)
  | j + 1 => hmacSha256 password (pbkdf2SpecU password salt i j)

/-- Xor of a nonempty list of byte strings (`U_1 xor ... xor U_c`). -/
def bigXor : List Bytes → Bytes
  | [] => []
  | x :: xs => xs.foldl zipXor x

/-- The RFC 2898 block `T_i = U_1 xor ... xor U_c`. -/
def pbkdf2SpecT (password salt : Bytes) (c i : Nat) : Bytes :=
  bigXor ((List.range c).map (pbkdf2SpecU password salt i))

/-- PBKDF2-HMAC-SHA256 written from the specification contract: the first
`dkLen` bytes of `T_1 || T_2 || ...` with `l = ceil(dkLen / 32)` blocks
of `c` iterations each. -/
def pbkdf2HmacSha256 (password salt : Bytes) (c dkLen : Nat) : Bytes :=
  (((List.range ((dkLen + 31) / 32)).map
      (fun i => pbkdf2SpecT password salt c (i + 1))).flatten).take dkLen

/-- Value of one base64 alphabet position (standard alphabet). -/
def b64Char (n : Nat) : Nat :=
  if n < 26 then 65 + n
  else if n < 52 then 97 + (n - 26)
  else if n < 62 then 48 + (n - 52)
  else if n = 62 then 43
  else 47

/-- Standard base64 encoding (`base64.StdEncoding.EncodeToString`), as
ASCII codes, with `=` (61) padding. -/
def base64Encode : Bytes → List Nat
  | [] => []
  | [b0] => [b64Char (b0 >>> 2), b64Char ((b0 % 4) <<< 4), 61, 61]
  | [b0, b1] => [b64Char (b0 >>> 2), b64Char (((b0 % 4) <<< 4) ||| (b1 >>> 4)),
                 b64Char ((b1 % 16) <<< 2), 61]
  | b0 :: b1 :: b2 :: rest =>
      b64Char (b0 >>> 2) :: b64Char (((b0 % 4) <<< 4) ||| (b1 >>> 4)) ::
      b64Char (((b1 % 16) <<< 2) ||| (b2 >>> 6)) :: b64Char (b2 % 64) ::
      base64Encode rest

theorem base64Encode_eq_nil_iff (b : Bytes) : base64Encode b = [] ↔ b = [] := by
  match b with
  | [] => simp [base64Encode]
  | [b0] => simp [base64Encode]
  | [b0, b1] => simp [base64Encode]
  | b0 :: b1 :: b2 :: rest => simp [base64Encode]

/-- The TPM algorithm identifiers used by the two revisions (a fragment of
`tpm2.Algorithm`). -/
inductive Alg where
  | algRSA
  | algSHA1
  | algSHA256
  | algAES
  | algCFB
  | algECC
  | algNull
deriving DecidableEq, Repr

/-- Object attribute flag `tpm2.FlagFixedTPM`. -/
def flagFixedTPM : Nat := 0x00000002
/-- Object attribute flag `tpm2.FlagFixedParent`. -/
def flagFixedParent : Nat := 0x00000010
/-- Object attribute flag `tpm2.FlagSensitiveDataOrigin`. -/
def flagSensitiveDataOrigin : Nat := 0x00000020
/-- Object attribute flag `tpm2.FlagUserWithAuth`. -/
def flagUserWithAuth : Nat := 0x00000040
/-- Object attribute flag `tpm2.FlagNoDA`. -/
def flagNoDA : Nat := 0x00000400
/-- Object attribute flag `tpm2.FlagRestricted`. -/
def flagRestricted : Nat := 0x00010000
/-- Object attribute flag `tpm2.FlagDecrypt`. -/
def flagDecrypt : Nat := 0x00020000

/-- The attribute set shared by every SRK template in both revisions:
`FixedTPM | FixedParent | SensitiveDataOrigin | UserWithAuth | Restricted |
Decrypt | NoDA`. -/
def srkAttributes : Nat :=
  flagFixedTPM ||| flagFixedParent ||| flagSensitiveDataOrigin |||
  flagUserWithAuth ||| flagRestricted ||| flagDecrypt ||| flagNoDA

/-- `tpm2.SymScheme`. -/
structure SymScheme where
  alg : Alg
  keyBits : Nat
  mode : Alg
deriving DecidableEq, Repr

/-- `tpm2.RSAParams`, restricted to the fields the sources set; a Go nil
`ModulusRaw` is the empty list. -/
structure RSAParams where
  symmetric : Option SymScheme
  keyBits : Nat
  modulusRaw : Bytes
deriving DecidableEq, Repr

/-- `tpm2.ECCParams`, restricted to the fields the sources set; the curve
is kept as its `tpm2.EllipticCurve` numeric value. -/
structure ECCParams where
  symmetric : Option SymScheme
  curveID : Nat
deriving DecidableEq, Repr

/-- Numeric value of `tpm2.CurveNISTP256`. -/
def curveNISTP256 : Nat := 3

/-- `tpm2.Public`, restricted to the fields the sources set. -/
structure Public where
  type : Alg
  nameAlg : Alg
  attributes : Nat
  authPolicy : Bytes
  rsaParameters : Option RSAParams
  eccParameters : Option ECCParams
deriving DecidableEq, Repr

/-- `defaultSymScheme` (identical in both revisions): AES-128-CFB. -/
def defaultSymScheme : SymScheme := ⟨Alg.algAES, 128, Alg.algCFB⟩

/-- `defaultRSAParams` (identical in both revisions): the default scheme
with 2048-bit keys and no explicit modulus. -/
def defaultRSAParams : RSAParams := ⟨some defaultSymScheme, 2048, []⟩

/-- `defaultECCParams` (identical in both revisions): the default scheme
on NIST P-256. -/
def defaultECCParams : ECCParams := ⟨some defaultSymScheme, curveNISTP256⟩

/-- The error outcomes of the embedded pipeline, one per distinct `return`
with an error in the sources. -/
inductive TpmErr where
  | dialFailed
  | notATpm
  | sessionStartFailed
  | policyPCRFailed
  | policyPasswordFailed
  | getDigestFailed
  | policyMismatch
  | createPrimaryFailed
  | loadFailed
  | unmarshalFailed
  | hashFailed
  | unsealFailed
deriving DecidableEq, Repr

/-- Events observable during a run: every module command issued (with its
arguments of interest), plus the host-side key-derivation step of the
second revision. -/
inductive Ev where
  | startAuthSession (nonceLen : Nat)
  | policyPCR (sess : Nat) (pcrs : List Nat) (bank : Alg)
  | policyPassword (sess : Nat)
  | policyGetDigest (sess : Nat)
  | createPrimary (template : Public)
  | load (parent : Nat) (publicBlob privateBlob : Bytes)
  | hashCmd (bank : Alg) (data : Bytes) (handle : Nat)
  | derive (password salt : Bytes)
  | unseal (sess obj : Nat) (auth : Bytes)
  | flushContext (handle : Nat)
deriving DecidableEq, Repr

/-- Oracle fixing the module's response to each command of one attempt
(the device is external to the repository, so its possible behaviors are
universally quantified in the theorems below). -/
structure TPMBehavior where
  dialOk : Bool
  manufacturerOk : Bool
  startAuthSessionOk : Bool
  policyPCROk : Bool
  policyPasswordOk : Bool
  policyGetDigest : Option Bytes
  createPrimaryOk : Bool
  loadOk : Bool
  hashResult : Option Bytes
  unsealResult : Option Bytes
deriving DecidableEq, Repr

/-- Module-resident handle bookkeeping: the next fresh handle value and
the list of currently outstanding (created, not yet flushed) handles. -/
structure ModuleState where
  next : Nat
  live : List Nat
deriving DecidableEq, Repr

/-- The empty module state at the start of an attempt. -/
def initialModuleState : ModuleState := ⟨0, []⟩

/-- Effect of `tpm2.FlushContext` on the bookkeeping state. -/
def flushHandle (h : Nat) (st : ModuleState) : ModuleState :=
  ⟨st.next, st.live.erase h⟩

/-- Outcome of `openTPM`: the result, and whether the underlying channel
(device or emulator socket) is open when the function returns. -/
structure OpenResult where
  result : Option TpmErr
  channelOpen : Bool
deriving DecidableEq, Repr

/-- `openTPM` (identical in both revisions): dial the emulator or open the
device node, then issue `tpm2.GetManufacturer`; a failed manufacturer
query is reported as an error, with no `Close` of the already-open
channel on that path. `result = none` means success. -/
def openTPM (beh : TPMBehavior) : OpenResult :=
  if beh.dialOk = false then ⟨some TpmErr.dialFailed, false⟩
  else if beh.manufacturerOk = false then ⟨some TpmErr.notATpm, true⟩
  else ⟨none, true⟩

/-- `parsePCRBank` (identical in both revisions): `"sha1"` and `"sha256"`
map to their algorithms, and the fall-through after the `switch` returns
`tpm2.AlgSHA256` for every other string. -/
def parsePCRBank (bank : String) : Alg :=
  if bank = "sha1" then Alg.algSHA1
  else if bank = "sha256" then Alg.algSHA256
  else Alg.algSHA256

/-- Result of `policyPCRSession`: either a live session handle with the
verified policy digest, or an error. -/
inductive SessOutcome where
  | ok (handle : Nat) (policy : Bytes)
  | err (e : TpmErr)
deriving DecidableEq, Repr

/-- Outcome, handle bookkeeping and command trace of one `policyPCRSession`
call. -/
structure SessResult where
  outcome : SessOutcome
  st : ModuleState
  trace : List Ev
deriving DecidableEq, Repr

/-- Result of `tpm2Unseal`: the unsealed bytes or an error. -/
inductive RunOutcome where
  | ok (secret : Bytes)
  | err (e : TpmErr)
deriving DecidableEq, Repr

/-- Outcome, trace, handle bookkeeping and channel status of one
`tpm2Unseal` call. -/
structure RunResult where
  outcome : RunOutcome
  trace : List Ev
  st : ModuleState
  channelOpen : Bool
deriving DecidableEq, Repr

/-- Result of `getSRKTemplate`: a template or the error message of the
`default` arm. -/
inductive TemplateResult where
  | ok (t : Public)
  | err (msg : String)
deriving DecidableEq, Repr

namespace Rev2

/-- `getSRKTemplate` of `src/unnamed/part_001`: dispatch on the encryption
algorithm name, with an explicit error for anything but rsa/ecc. -/
def getSRKTemplate (encryptAlg : String) : TemplateResult :=
  if encryptAlg = "rsa" then
    TemplateResult.ok
      { type := Alg.algRSA, nameAlg := Alg.algSHA256, attributes := srkAttributes,
        authPolicy := [], rsaParameters := some defaultRSAParams, eccParameters := none }
  else if encryptAlg = "ecc" then
    TemplateResult.ok
      { type := Alg.algECC, nameAlg := Alg.algSHA256, attributes := srkAttributes,
        authPolicy := [], rsaParameters := none, eccParameters := some defaultECCParams }
  else
    TemplateResult.err "failed getting srk template because encryption algorithm is not ecc/rsa"

/-- The `srkTemplate` literal built inline by `tpm2Unseal` of
`src/unnamed/part_001` (an RSA template, written out in place and not
obtained from `getSRKTemplate`). -/
def srkTemplate : Public :=
  { type := Alg.algRSA, nameAlg := Alg.algSHA256, attributes := srkAttributes,
    authPolicy := [],
    rsaParameters := some ⟨some ⟨Alg.algAES, 128, Alg.algCFB⟩, 2048, []⟩,
    eccParameters := none }

/-- The authorization value computed by `tpm2Unseal` of
`src/unnamed/part_001`: `pbkdf2.Key(password, salt, 10000, 32, sha256.New)`
(a Go nil password behaves as the empty byte string). -/
def deriveAuthValue (password : Option Bytes) (salt : Bytes) : Bytes :=
  pbkdf2Key (hmacSha256 (password.getD [])) 32 salt 10000 32

/-- `policyPCRSession` of `src/unnamed/part_001`: start a policy session
(16-byte caller nonce), assert the PCR predicate only for a non-empty
selection, optionally assert the password predicate, read the digest and
compare it byte-exact against the expected digest.  On every failure
after the session start the function returns the null handle without
flushing the started session. -/
def policyPCRSession (beh : TPMBehavior) (st : ModuleState) (pcrs : List Nat)
    (algo : Alg) (expectedDigest : Bytes) (usePassword : Bool) : SessResult :=
  if beh.startAuthSessionOk = false then
    ⟨SessOutcome.err TpmErr.sessionStartFailed, st, [Ev.startAuthSession 16]⟩
  else
    let sessHandle := st.next
    let st1 : ModuleState := ⟨st.next + 1, sessHandle :: st.live⟩
    let afterPW : List Ev → SessResult := fun tr =>
      let tr3 := tr ++ [Ev.policyGetDigest sessHandle]
      match beh.policyGetDigest with
      | none => ⟨SessOutcome.err TpmErr.getDigestFailed, st1, tr3⟩
      | some policy =>
        if policy = expectedDigest then ⟨SessOutcome.ok sessHandle policy, st1, tr3⟩
        else ⟨SessOutcome.err TpmErr.policyMismatch, st1, tr3⟩
    let afterPCR : List Ev → SessResult := fun tr =>
      if usePassword then
        if beh.policyPasswordOk = false then
          ⟨SessOutcome.err TpmErr.policyPasswordFailed, st1, tr ++ [Ev.policyPassword sessHandle]⟩
        else afterPW (tr ++ [Ev.policyPassword sessHandle])
      else afterPW tr
    if pcrs.length > 0 then
      let tr1 := [Ev.startAuthSession 16, Ev.policyPCR sessHandle pcrs algo]
      if beh.policyPCROk = false then
        ⟨SessOutcome.err TpmErr.policyPCRFailed, st1, tr1⟩
      else afterPCR tr1
    else afterPCR [Ev.startAuthSession 16]

/-- `tpm2Unseal` of `src/unnamed/part_001`: open the device, build the
policy session, create the primary key from the inline RSA template, load
the blob, derive the PBKDF2 authorization value, and unseal through the
session with the base64-encoded value; deferred flushes release the
handles created in this function body on their exit paths.  The `srk` and
`encryptAlg` parameters are accepted but never read. -/
def tpm2Unseal (beh : TPMBehavior) (publicBlob privateBlob : Bytes) (pcrs : List Nat)
    (bank : Alg) (policyHash : Bytes) (password : Option Bytes)
    (encryptAlg : String) (srk : Bytes) (salt : Bytes) : RunResult :=
  let op := openTPM beh
  match op.result with
  | some e => ⟨RunOutcome.err e, [], initialModuleState, op.channelOpen⟩
  | none =>
    let sres := policyPCRSession beh initialModuleState pcrs bank policyHash password.isSome
    match sres.outcome with
    | SessOutcome.err e => ⟨RunOutcome.err e, sres.trace, sres.st, false⟩
    | SessOutcome.ok sessHandle _ =>
      let tr1 := sres.trace ++ [Ev.createPrimary srkTemplate]
      if beh.createPrimaryOk = false then
        ⟨RunOutcome.err TpmErr.createPrimaryFailed, tr1 ++ [Ev.flushContext sessHandle],
         flushHandle sessHandle sres.st, false⟩
      else
        let srkHandle := sres.st.next
        let st2 : ModuleState := ⟨sres.st.next + 1, srkHandle :: sres.st.live⟩
        let tr2 := tr1 ++ [Ev.load srkHandle publicBlob privateBlob]
        if beh.loadOk = false then
          ⟨RunOutcome.err TpmErr.loadFailed,
           tr2 ++ [Ev.flushContext srkHandle, Ev.flushContext sessHandle],
           flushHandle sessHandle (flushHandle srkHandle st2), false⟩
        else
          let objHandle := st2.next
          let st3 : ModuleState := ⟨st2.next + 1, objHandle :: st2.live⟩
          let hmacValue := deriveAuthValue password salt
          let tr3 := tr2 ++ [Ev.derive (password.getD []) salt,
                             Ev.unseal sessHandle objHandle (base64Encode hmacValue)]
          let trEnd := tr3 ++ [Ev.flushContext objHandle, Ev.flushContext srkHandle,
                               Ev.flushContext sessHandle]
          let stEnd := flushHandle sessHandle (flushHandle srkHandle (flushHandle objHandle st3))
          match beh.unsealResult with
          | none => ⟨RunOutcome.err TpmErr.unsealFailed, trEnd, stEnd, false⟩
          | some unsealed => ⟨RunOutcome.ok unsealed, trEnd, stEnd, false⟩

end Rev2

namespace Rev1

/-- The `srkTemplate` literal built inline by `tpm2Unseal` of
`src/init/tpm.go`; identical to the later revision except that it sets
`ModulusRaw` to 256 zero bytes. -/
def srkTemplate : Public :=
  { type := Alg.algRSA, nameAlg := Alg.algSHA256, attributes := srkAttributes,
    authPolicy := [],
    rsaParameters := some ⟨some ⟨Alg.algAES, 128, Alg.algCFB⟩, 2048, List.replicate 256 0⟩,
    eccParameters := none }

/-- `tpmutil.U16Bytes.TPMUnmarshal` applied to the password buffer in
`tpm2Unseal` of `src/init/tpm.go`: read a big-endian 2-byte length, then
that many bytes; fails when the buffer is shorter (in particular on a nil
password). -/
def tpmUnmarshalU16Bytes : Bytes → Option Bytes
  | b0 :: b1 :: rest =>
      let n := b0 * 256 + b1
      if n ≤ rest.length then some (rest.take n) else none
  | _ => none

/-- `policyPCRSession` of `src/init/tpm.go`: start a policy session
(32-byte caller nonce), always assert the PCR predicate — also for an
empty selection — optionally assert the password predicate, read the
digest and compare it byte-exact against the expected digest.  On every
failure after the session start the function returns the null handle
without flushing the started session. -/
def policyPCRSession (beh : TPMBehavior) (st : ModuleState) (pcrs : List Nat)
    (algo : Alg) (expectedDigest : Bytes) (usePassword : Bool) : SessResult :=
  if beh.startAuthSessionOk = false then
    ⟨SessOutcome.err TpmErr.sessionStartFailed, st, [Ev.startAuthSession 32]⟩
  else
    let sessHandle := st.next
    let st1 : ModuleState := ⟨st.next + 1, sessHandle :: st.live⟩
    let afterPW : List Ev → SessResult := fun tr =>
      let tr3 := tr ++ [Ev.policyGetDigest sessHandle]
      match beh.policyGetDigest with
      | none => ⟨SessOutcome.err TpmErr.getDigestFailed, st1, tr3⟩
      | some policy =>
        if policy = expectedDigest then ⟨SessOutcome.ok sessHandle policy, st1, tr3⟩
        else ⟨SessOutcome.err TpmErr.policyMismatch, st1, tr3⟩
    let tr1 := [Ev.startAuthSession 32, Ev.policyPCR sessHandle pcrs algo]
    if beh.policyPCROk = false then
      ⟨SessOutcome.err TpmErr.policyPCRFailed, st1, tr1⟩
    else if usePassword then
      if beh.policyPasswordOk = false then
        ⟨SessOutcome.err TpmErr.policyPasswordFailed, st1, tr1 ++ [Ev.policyPassword sessHandle]⟩
      else afterPW (tr1 ++ [Ev.policyPassword sessHandle])
    else afterPW tr1

/-- `tpm2Unseal` of `src/init/tpm.go`: open the device, build the policy
session, create the primary key from the inline RSA template, load the
blob, unmarshal the password as a TPM U16 buffer, hash it on the module,
and unseal through the session with the digest as authorization; deferred
flushes release the handles created in this function body on their exit
paths. -/
def tpm2Unseal (beh : TPMBehavior) (publicBlob privateBlob : Bytes) (pcrs : List Nat)
    (bank : Alg) (policyHash : Bytes) (password : Option Bytes) : RunResult :=
  let op := openTPM beh
  match op.result with
  | some e => ⟨RunOutcome.err e, [], initialModuleState, op.channelOpen⟩
  | none =>
    let sres := policyPCRSession beh initialModuleState pcrs bank policyHash password.isSome
    match sres.outcome with
    | SessOutcome.err e => ⟨RunOutcome.err e, sres.trace, sres.st, false⟩
    | SessOutcome.ok sessHandle _ =>
      let tr1 := sres.trace ++ [Ev.createPrimary srkTemplate]
      if beh.createPrimaryOk = false then
        ⟨RunOutcome.err TpmErr.createPrimaryFailed, tr1 ++ [Ev.flushContext sessHandle],
         flushHandle sessHandle sres.st, false⟩
      else
        let srkHandle := sres.st.next
        let st2 : ModuleState := ⟨sres.st.next + 1, srkHandle :: sres.st.live⟩
        let tr2 := tr1 ++ [Ev.load srkHandle publicBlob privateBlob]
        if beh.loadOk = false then
          ⟨RunOutcome.err TpmErr.loadFailed,
           tr2 ++ [Ev.flushContext srkHandle, Ev.flushContext sessHandle],
           flushHandle sessHandle (flushHandle srkHandle st2), false⟩
        else
          let objHandle := st2.next
          let st3 : ModuleState := ⟨st2.next + 1, objHandle :: st2.live⟩
          let trEndOf : List Ev → List Ev := fun tr =>
            tr ++ [Ev.flushContext objHandle, Ev.flushContext srkHandle,
                   Ev.flushContext sessHandle]
          let stEnd := flushHandle sessHandle (flushHandle srkHandle (flushHandle objHandle st3))
          match tpmUnmarshalU16Bytes (password.getD []) with
          | none => ⟨RunOutcome.err TpmErr.unmarshalFailed, trEndOf tr2, stEnd, false⟩
          | some buffer =>
            let tr3 := tr2 ++ [Ev.hashCmd bank buffer objHandle]
            match beh.hashResult with
            | none => ⟨RunOutcome.err TpmErr.hashFailed, trEndOf tr3, stEnd, false⟩
            | some digest =>
              let tr4 := tr3 ++ [Ev.unseal sessHandle objHandle digest]
              match beh.unsealResult with
              | none => ⟨RunOutcome.err TpmErr.unsealFailed, trEndOf tr4, stEnd, false⟩
              | some unsealed => ⟨RunOutcome.ok unsealed, trEndOf tr4, stEnd, false⟩

end Rev1

theorem pbkdf2Inner_eq_foldl (prf : Bytes → Bytes) :
    ∀ (n : Nat) (t u : Bytes),
      pbkdf2Inner prf n t u =
        List.foldl zipXor t ((List.range n).map (fun j => prf^[j + 1] u)) := by
  intro n
  induction n with
  | zero => intro t u; simp [pbkdf2Inner]
  | succ n ih =>
      intro t u
      rw [pbkdf2Inner, ih, List.range_succ_eq_map]
      simp only [List.map_cons, List.map_map, List.foldl_cons, Function.iterate_one,
        Function.comp_def]
      congr 1

theorem pbkdf2SpecU_eq_iterate (password salt : Bytes) (i : Nat) :
    ∀ j, pbkdf2SpecU password salt i j =
        (hmacSha256 password)^[j] (hmacSha256 password (salt ++ be32 i)) := by
  intro j
  induction j with
  | zero => simp [pbkdf2SpecU]
  | succ j ih => rw [pbkdf2SpecU, ih, Function.iterate_succ_apply']

theorem pbkdf2SpecT_eq_block (password salt : Bytes) (i n : Nat) :
    pbkdf2SpecT password salt (n + 1) i = pbkdf2Block (hmacSha256 password) salt (n + 1) i := by
  simp only [pbkdf2SpecT, pbkdf2Block, Nat.add_sub_cancel]
  rw [pbkdf2Inner_eq_foldl, List.range_succ_eq_map]
  simp only [List.map_cons, List.map_map, bigXor, Function.comp_def]
  congr 1
  exact List.map_congr_left (fun j _ => pbkdf2SpecU_eq_iterate password salt i (j + 1))

theorem pbkdf2Key_eq_spec (password salt : Bytes) (iter dkLen : Nat) (h : 1 ≤ iter) :
    pbkdf2Key (hmacSha256 password) 32 salt iter dkLen =
      pbkdf2HmacSha256 password salt iter dkLen := by
  obtain ⟨n, rfl⟩ : ∃ n, iter = n + 1 := ⟨iter - 1, by omega⟩
  unfold pbkdf2Key pbkdf2HmacSha256
  rw [show dkLen + 32 - 1 = dkLen + 31 from by omega]
  rw [List.map_congr_left
    (fun i _ => (pbkdf2SpecT_eq_block password salt (i + 1) n : _))]

theorem pbkdf2Inner_length (prf : Bytes → Bytes) (h : ∀ x, (prf x).length = 32) :
    ∀ (n : Nat) (t u : Bytes), t.length = 32 → (pbkdf2Inner prf n t u).length = 32 := by
  intro n
  induction n with
  | zero => intro t u ht; simpa [pbkdf2Inner] using ht
  | succ n ih =>
      intro t u ht
      rw [pbkdf2Inner]
      exact ih _ _ (by simp [zipXor, ht, h])

theorem pbkdf2Key_32_length (password salt : Bytes) (iter : Nat) :
    (pbkdf2Key (hmacSha256 password) 32 salt iter 32).length = 32 := by
  have hb : (pbkdf2Block (hmacSha256 password) salt iter 1).length = 32 := by
    rw [pbkdf2Block]
    exact pbkdf2Inner_length _ (fun x => hmacSha256_length password x) _ _ _
      (hmacSha256_length password _)
  simp [pbkdf2Key, List.range_succ, hb]

/-- The errors a `policyPCRSession` call can produce after its session has
already been started (the paths on which the started session handle is
returned as the null handle). -/
def policyStageErr : TpmErr → Bool
  | TpmErr.policyPCRFailed => true
  | TpmErr.policyPasswordFailed => true
  | TpmErr.getDigestFailed => true
  | TpmErr.policyMismatch => true
  | _ => false

/-- Discriminator for PCR-predicate assertion commands in a trace. -/
def isPolicyPCREv : Ev → Bool
  | Ev.policyPCR _ _ _ => true
  | _ => false

/-- Discriminator for password-predicate assertion commands in a trace. -/
def isPolicyPasswordEv : Ev → Bool
  | Ev.policyPassword _ => true
  | _ => false

/-- Discriminator for the host-side authorization-derivation step in a
trace. -/
def isDeriveEv : Ev → Bool
  | Ev.derive _ _ => true
  | _ => false

/-- Discriminator for unseal commands in a trace. -/
def isUnsealEv : Ev → Bool
  | Ev.unseal _ _ _ => true
  | _ => false

/-- Number of module handles the code actually leaves outstanding for a
given outcome: one (the unflushed session handle) for failures inside the
policy session build after session start, zero everywhere else. -/
def expectedOutstanding : RunOutcome → Nat
  | RunOutcome.err e => if policyStageErr e then 1 else 0
  | RunOutcome.ok _ => 0

theorem rev2_policyPCRSession_spec (beh : TPMBehavior) (st : ModuleState)
    (pcrs : List Nat) (algo : Alg) (exp : Bytes) (use : Bool) :
    (beh.startAuthSessionOk = false ∧
      (Rev2.policyPCRSession beh st pcrs algo exp use).outcome =
        SessOutcome.err TpmErr.sessionStartFailed ∧
      (Rev2.policyPCRSession beh st pcrs algo exp use).st = st) ∨
    (beh.startAuthSessionOk = true ∧
      (Rev2.policyPCRSession beh st pcrs algo exp use).st =
        ⟨st.next + 1, st.next :: st.live⟩ ∧
      ((∃ d, (Rev2.policyPCRSession beh st pcrs algo exp use).outcome =
          SessOutcome.ok st.next d) ∨
       (∃ e, (Rev2.policyPCRSession beh st pcrs algo exp use).outcome =
          SessOutcome.err e ∧ policyStageErr e = true))) := by
  by_cases h1 : beh.startAuthSessionOk = false
  · left
    simp [Rev2.policyPCRSession, h1]
  · right
    rw [Bool.not_eq_false] at h1
    refine ⟨h1, ?_⟩
    simp only [Rev2.policyPCRSession, h1, Bool.true_eq_false, if_false]
    by_cases hp : pcrs.length > 0 <;>
      by_cases h2 : beh.policyPCROk = false <;>
        cases use <;>
          by_cases h3 : beh.policyPasswordOk = false <;>
            rcases hd : beh.policyGetDigest with _ | d <;>
              simp [hp, h2, h3, hd, policyStageErr] <;>
                by_cases h4 : d = exp <;> simp [h4, policyStageErr]

theorem rev1_policyPCRSession_spec (beh : TPMBehavior) (st : ModuleState)
    (pcrs : List Nat) (algo : Alg) (exp : Bytes) (use : Bool) :
    (beh.startAuthSessionOk = false ∧
      (Rev1.policyPCRSession beh st pcrs algo exp use).outcome =
        SessOutcome.err TpmErr.sessionStartFailed ∧
      (Rev1.policyPCRSession beh st pcrs algo exp use).st = st) ∨
    (beh.startAuthSessionOk = true ∧
      (Rev1.policyPCRSession beh st pcrs algo exp use).st =
        ⟨st.next + 1, st.next :: st.live⟩ ∧
      ((∃ d, (Rev1.policyPCRSession beh st pcrs algo exp use).outcome =
          SessOutcome.ok st.next d) ∨
       (∃ e, (Rev1.policyPCRSession beh st pcrs algo exp use).outcome =
          SessOutcome.err e ∧ policyStageErr e = true))) := by
  by_cases h1 : beh.startAuthSessionOk = false
  · left
    simp [Rev1.policyPCRSession, h1]
  · right
    rw [Bool.not_eq_false] at h1
    refine ⟨h1, ?_⟩
    simp only [Rev1.policyPCRSession, h1, Bool.true_eq_false, if_false]
    by_cases h2 : beh.policyPCROk = false <;>
      cases use <;>
        by_cases h3 : beh.policyPasswordOk = false <;>
          rcases hd : beh.policyGetDigest with _ | d <;>
            simp [h2, h3, hd, policyStageErr] <;>
              by_cases h4 : d = exp <;> simp [h4, policyStageErr]

/-- Claim C2 (confirmed): for every password and salt, the authorization
value the second revision derives before unsealing equals
PBKDF2-HMAC-SHA256 with that password and salt, exactly 10000 iterations
and exactly 32 output bytes. -/
theorem c2_derive_auth_is_pbkdf2_sha256_10000_32 (password salt : Bytes) :
    Rev2.deriveAuthValue (some password) salt = pbkdf2HmacSha256 password salt 10000 32 ∧
    (Rev2.deriveAuthValue (some password) salt).length = 32 := by
  constructor
  · show pbkdf2Key (hmacSha256 ((some password).getD [])) 32 salt 10000 32 = _
    rw [Option.getD_some]
    exact pbkdf2Key_eq_spec password salt 10000 32 (by norm_num)
  · show (pbkdf2Key (hmacSha256 ((some password).getD [])) 32 salt 10000 32).length = 32
    rw [Option.getD_some]
    exact pbkdf2Key_32_length password salt 10000

/-- Claim C8 (confirmed): `parsePCRBank` maps `"sha1"` to SHA-1,
`"sha256"` to SHA-256, and every other string — the empty string
included — silently to SHA-256. -/
theorem c8_parsePCRBank_silent_default (s : String) (h : s ≠ "sha1") :
    parsePCRBank "sha1" = Alg.algSHA1 ∧
    parsePCRBank "sha256" = Alg.algSHA256 ∧
    parsePCRBank "" = Alg.algSHA256 ∧
    parsePCRBank s = Alg.algSHA256 := by
  refine ⟨by decide, by decide, by decide, ?_⟩
  by_cases h2 : s = "sha256" <;> simp [parsePCRBank, h, h2]

/-- Witness for C8 at the concrete unrecognized bank name "md5". -/
theorem c8_witness :
    ("md5" : String) ≠ "sha1" ∧ parsePCRBank "md5" = Alg.algSHA256 :=
  ⟨by decide, (c8_parsePCRBank_silent_default "md5" (by decide)).2.2.2⟩

/-- Claim C9 (confirmed): the second revision's `tpm2Unseal` gives
identical results — outcome, full command trace, handle bookkeeping and
channel state — for any two values of the unused `srk` and `encryptAlg`
parameters, all other arguments equal. -/
theorem c9_srk_encryptAlg_irrelevant (beh : TPMBehavior)
    (publicBlob privateBlob : Bytes) (pcrs : List Nat) (bank : Alg)
    (policyHash : Bytes) (password : Option Bytes)
    (encryptAlg1 encryptAlg2 : String) (srk1 srk2 salt : Bytes) :
    Rev2.tpm2Unseal beh publicBlob privateBlob pcrs bank policyHash password
        encryptAlg1 srk1 salt =
      Rev2.tpm2Unseal beh publicBlob privateBlob pcrs bank policyHash password
        encryptAlg2 srk2 salt := rfl

/-- Claim C10 (confirmed): when the channel opens but the manufacturer
query fails, `openTPM` returns the not-a-TPM error and leaves the
already-opened channel open (no close is issued on that path). -/
theorem c10_openTPM_leaks_channel (beh : TPMBehavior)
    (h1 : beh.dialOk = true) (h2 : beh.manufacturerOk = false) :
    (openTPM beh).result = some TpmErr.notATpm ∧ (openTPM beh).channelOpen = true := by
  simp [openTPM, h1, h2]

/-- Witness for C10 at a concrete behavior whose dial succeeds and whose
manufacturer query fails. -/
theorem c10_witness :
    (⟨true, false, true, true, true, some [], true, true, some [], some []⟩ :
        TPMBehavior).dialOk = true ∧
    (⟨true, false, true, true, true, some [], true, true, some [], some []⟩ :
        TPMBehavior).manufacturerOk = false ∧
    ((openTPM ⟨true, false, true, true, true, some [], true, true, some [], some []⟩).result =
        some TpmErr.notATpm ∧
      (openTPM ⟨true, false, true, true, true, some [], true, true, some [], some []⟩).channelOpen =
        true) :=
  ⟨rfl, rfl, c10_openTPM_leaks_channel _ rfl rfl⟩

/-- Claim C4 (confirmed): in both revisions, the digest read back from
the session is compared byte-exact against the recorded digest — the
session build succeeds with the session handle if and only if they are
equal — and any mismatch is a hard failure with the policy-mismatch
error, after which no session handle is returned to the caller. -/
theorem c4_digest_byte_exact_hard_stop (beh : TPMBehavior) (st : ModuleState)
    (pcrs : List Nat) (algo : Alg) (expected : Bytes) (use : Bool) (d : Bytes)
    (h1 : beh.startAuthSessionOk = true) (h2 : beh.policyPCROk = true)
    (h3 : beh.policyPasswordOk = true) (h4 : beh.policyGetDigest = some d) :
    ((Rev2.policyPCRSession beh st pcrs algo expected use).outcome =
        SessOutcome.ok st.next d ↔ d = expected) ∧
    (d ≠ expected →
      (Rev2.policyPCRSession beh st pcrs algo expected use).outcome =
        SessOutcome.err TpmErr.policyMismatch) ∧
    ((Rev1.policyPCRSession beh st pcrs algo expected use).outcome =
        SessOutcome.ok st.next d ↔ d = expected) ∧
    (d ≠ expected →
      (Rev1.policyPCRSession beh st pcrs algo expected use).outcome =
        SessOutcome.err TpmErr.policyMismatch) := by
  by_cases hp : pcrs.length > 0 <;> cases use <;> by_cases hde : d = expected <;>
    simp [Rev2.policyPCRSession, Rev1.policyPCRSession, h1, h2, h3, h4, hp, hde]

/-- Witness for C4 at a concrete behavior whose session digest is [3]
while the recorded digest is [9]. -/
theorem c4_witness :
    (⟨true, true, true, true, true, some [3], true, true, some [], some []⟩ :
        TPMBehavior).policyGetDigest = some [3] ∧
    ([3] : Bytes) ≠ [9] ∧
    (Rev2.policyPCRSession
        ⟨true, true, true, true, true, some [3], true, true, some [], some []⟩
        initialModuleState [7] Alg.algSHA256 [9] true).outcome =
      SessOutcome.err TpmErr.policyMismatch :=
  ⟨rfl, by decide,
    (c4_digest_byte_exact_hard_stop _ initialModuleState [7] Alg.algSHA256 [9] true [3]
        rfl rfl rfl rfl).2.1 (by decide)⟩

/-- Claim C5, amended (the second revision asserts the PCR predicate if
and only if the selection is non-empty; the first revision always asserts
it, also for an empty selection): under a started session, the second
revision's trace contains a PCR-predicate command exactly when `pcrs` is
non-empty, while the first revision's trace always contains one. -/
theorem c5_amended_pcr_assertion (beh : TPMBehavior) (st : ModuleState)
    (pcrs : List Nat) (algo : Alg) (exp : Bytes) (use : Bool)
    (h1 : beh.startAuthSessionOk = true) :
    ((Rev2.policyPCRSession beh st pcrs algo exp use).trace.any isPolicyPCREv = true ↔
      pcrs ≠ []) ∧
    (Rev1.policyPCRSession beh st pcrs algo exp use).trace.any isPolicyPCREv = true := by
  by_cases hp : pcrs.length > 0 <;>
    by_cases h2 : beh.policyPCROk = false <;>
      cases use <;>
        by_cases h3 : beh.policyPasswordOk = false <;>
          rcases hd : beh.policyGetDigest with _ | d <;>
            simp_all [Rev2.policyPCRSession, Rev1.policyPCRSession, isPolicyPCREv,
              apply_ite SessResult.trace, List.length_pos, List.length_eq_zero]

/-- Counterexample for C5 as stated: the first revision's session build
with an empty PCR selection still issues a PCR-predicate assertion
command (the claim says no PCR predicate assertion is issued for an
empty selection). -/
theorem c5_counterexample :
    Ev.policyPCR 0 [] Alg.algSHA256 ∈
      (Rev1.policyPCRSession
          ⟨true, true, true, true, true, some [2], true, true, some [], some []⟩
          initialModuleState [] Alg.algSHA256 [2] false).trace := by decide

/-- Witness for the amended C5 at a non-empty and an empty selection. -/
theorem c5_witness :
    (⟨true, true, true, true, true, some [2], true, true, some [], some []⟩ :
        TPMBehavior).startAuthSessionOk = true ∧
    ((Rev2.policyPCRSession
          ⟨true, true, true, true, true, some [2], true, true, some [], some []⟩
          initialModuleState [7] Alg.algSHA256 [2] false).trace.any isPolicyPCREv = true ↔
      ([7] : List Nat) ≠ []) :=
  ⟨rfl,
    (c5_amended_pcr_assertion _ initialModuleState [7] Alg.algSHA256 [2] false rfl).1⟩

/-- Claim C7 (confirmed): in the second revision, for an attempt with a
non-empty PCR selection whose session digest differs from the recorded
digest, `tpm2Unseal` fails with the policy-mismatch error and its trace
contains neither the authorization-derivation step nor an unseal command:
the derivation is never invoked and no authorization value is
transmitted on that attempt. -/
theorem c7_mismatch_before_derivation (beh : TPMBehavior)
    (publicBlob privateBlob : Bytes) (pcrs : List Nat) (bank : Alg)
    (policyHash : Bytes) (password : Option Bytes) (encryptAlg : String)
    (srk salt : Bytes) (d : Bytes)
    (h0 : beh.dialOk = true) (h0b : beh.manufacturerOk = true)
    (h1 : beh.startAuthSessionOk = true) (h2 : beh.policyPCROk = true)
    (h3 : beh.policyPasswordOk = true) (h4 : beh.policyGetDigest = some d)
    (h5 : pcrs ≠ []) (h6 : d ≠ policyHash) :
    (Rev2.tpm2Unseal beh publicBlob privateBlob pcrs bank policyHash password
        encryptAlg srk salt).outcome = RunOutcome.err TpmErr.policyMismatch ∧
    (Rev2.tpm2Unseal beh publicBlob privateBlob pcrs bank policyHash password
        encryptAlg srk salt).trace.any isDeriveEv = false ∧
    (Rev2.tpm2Unseal beh publicBlob privateBlob pcrs bank policyHash password
        encryptAlg srk salt).trace.any isUnsealEv = false := by
  have hp : pcrs.length > 0 := List.length_pos.mpr h5
  cases password <;>
    simp [Rev2.tpm2Unseal, Rev2.policyPCRSession, openTPM, h0, h0b, h1, h2, h3, h4, hp, h6,
      isDeriveEv, isUnsealEv]

/-- Witness for C7 at a concrete behavior whose session digest [1]
differs from the recorded digest [2]. -/
theorem c7_witness :
    (([7] : List Nat) ≠ [] ∧ ([1] : Bytes) ≠ [2]) ∧
    (Rev2.tpm2Unseal
        ⟨true, true, true, true, true, some [1], true, true, some [], some []⟩
        [] [] [7] Alg.algSHA256 [2] (some [5, 5]) "rsa" [] [9]).outcome =
      RunOutcome.err TpmErr.policyMismatch :=
  ⟨⟨by decide, by decide⟩,
    (c7_mismatch_before_derivation _ [] [] [7] Alg.algSHA256 [2] (some [5, 5]) "rsa" [] [9] [1]
        rfl rfl rfl rfl rfl rfl (by decide) (by decide)).1⟩

/-- Counterexample for C3 as stated: an unseal attempt of the second
revision with an absent password still performs the
authorization-derivation step (the claim says the derivation step is not
performed at all when the password is absent). -/
theorem c3_counterexample :
    Ev.derive [] [9] ∈
      (Rev2.tpm2Unseal
          ⟨true, true, true, true, true, some [2], true, true, some [7], some [42]⟩
          [] [] [] Alg.algSHA256 [2] none "rsa" [] [9]).trace := by decide

theorem deriveAuthValue_length (password : Option Bytes) (salt : Bytes) :
    (Rev2.deriveAuthValue password salt).length = 32 :=
  pbkdf2Key_32_length (password.getD []) salt 10000

theorem deriveAuthValue_ne_nil (password : Option Bytes) (salt : Bytes) :
    Rev2.deriveAuthValue password salt ≠ [] := by
  intro h
  have := deriveAuthValue_length password salt
  rw [h] at this
  simp at this

/-- Claim C3, amended (when the password is absent the second revision
does skip the password predicate, but it does not skip the derivation:
`pbkdf2.Key` is still evaluated on the nil password and the resulting
non-empty base64-encoded value is presented to the unseal command): on a
password-less attempt that reaches the unseal stage, no password
predicate is asserted, the derivation step runs on the empty password,
and the authorization value presented to unseal is the non-empty
encoding of the derived key. -/
theorem c3_amended_derivation_not_skipped (beh : TPMBehavior)
    (publicBlob privateBlob : Bytes) (pcrs : List Nat) (bank : Alg)
    (policyHash : Bytes) (encryptAlg : String) (srk salt : Bytes)
    (h0 : beh.dialOk = true) (h0b : beh.manufacturerOk = true)
    (h1 : beh.startAuthSessionOk = true) (h2 : beh.policyPCROk = true)
    (h4 : beh.policyGetDigest = some policyHash)
    (h5 : beh.createPrimaryOk = true) (h6 : beh.loadOk = true) :
    (Rev2.tpm2Unseal beh publicBlob privateBlob pcrs bank policyHash none
        encryptAlg srk salt).trace.any isPolicyPasswordEv = false ∧
    Ev.derive [] salt ∈
      (Rev2.tpm2Unseal beh publicBlob privateBlob pcrs bank policyHash none
        encryptAlg srk salt).trace ∧
    Ev.unseal 0 2 (base64Encode (Rev2.deriveAuthValue none salt)) ∈
      (Rev2.tpm2Unseal beh publicBlob privateBlob pcrs bank policyHash none
        encryptAlg srk salt).trace ∧
    base64Encode (Rev2.deriveAuthValue none salt) ≠ [] := by
  refine ⟨?_, ?_, ?_, ?_⟩
  case _ | _ | _ =>
    rcases hu : beh.unsealResult with _ | u <;>
      by_cases hp : pcrs.length > 0 <;>
        simp [Rev2.tpm2Unseal, Rev2.policyPCRSession, openTPM, h0, h0b, h1, h2, h4, h5, h6,
          hu, hp, isPolicyPasswordEv, initialModuleState]
  case _ =>
    intro h
    exact deriveAuthValue_ne_nil none salt ((base64Encode_eq_nil_iff _).mp h)

/-- Witness for the amended C3 at a concrete behavior that reaches the
unseal stage with an absent password. -/
theorem c3_witness :
    (⟨true, true, true, true, true, some [2], true, true, some [7], some [42]⟩ :
        TPMBehavior).loadOk = true ∧
    Ev.derive [] [9] ∈
      (Rev2.tpm2Unseal
          ⟨true, true, true, true, true, some [2], true, true, some [7], some [42]⟩
          [] [] [] Alg.algSHA256 [2] none "rsa" [] [9]).trace ∧
    base64Encode (Rev2.deriveAuthValue none [9]) ≠ [] :=
  ⟨rfl,
    (c3_amended_derivation_not_skipped
        ⟨true, true, true, true, true, some [2], true, true, some [7], some [42]⟩
        [] [] [] Alg.algSHA256 [2] "rsa" [] [9]
        rfl rfl rfl rfl rfl rfl rfl).2.1,
    (c3_amended_derivation_not_skipped
        ⟨true, true, true, true, true, some [2], true, true, some [7], some [42]⟩
        [] [] [] Alg.algSHA256 [2] "rsa" [] [9]
        rfl rfl rfl rfl rfl rfl rfl).2.2.2⟩

/-- Discriminator for the commands a `policyPCRSession` call can issue. -/
def isSessionEv : Ev → Bool
  | Ev.startAuthSession _ => true
  | Ev.policyPCR _ _ _ => true
  | Ev.policyPassword _ => true
  | Ev.policyGetDigest _ => true
  | _ => false

theorem rev2_session_trace_all (beh : TPMBehavior) (st : ModuleState)
    (pcrs : List Nat) (algo : Alg) (exp : Bytes) (use : Bool) :
    (Rev2.policyPCRSession beh st pcrs algo exp use).trace.all isSessionEv = true := by
  by_cases hp : pcrs.length > 0 <;>
    by_cases h1 : beh.startAuthSessionOk = false <;>
      by_cases h2 : beh.policyPCROk = false <;>
        cases use <;>
          by_cases h3 : beh.policyPasswordOk = false <;>
            rcases hd : beh.policyGetDigest with _ | d <;>
              simp [Rev2.policyPCRSession, isSessionEv, h1, h2, h3, hd, hp,
                apply_ite SessResult.trace]

/-- Property of a single event: if it is a primary-key creation command,
it carries the fixed inline RSA template. -/
def usesFixedSrkTemplate : Ev → Bool
  | Ev.createPrimary t => if t = Rev2.srkTemplate then true else false
  | _ => true

theorem isSessionEv_usesFixedSrkTemplate (e : Ev) (h : isSessionEv e = true) :
    usesFixedSrkTemplate e = true := by
  cases e <;> simp_all [isSessionEv, usesFixedSrkTemplate]

theorem rev2_trace_fixed_template (beh : TPMBehavior)
    (publicBlob privateBlob : Bytes) (pcrs : List Nat) (bank : Alg)
    (policyHash : Bytes) (password : Option Bytes) (encryptAlg : String)
    (srk salt : Bytes) :
    (Rev2.tpm2Unseal beh publicBlob privateBlob pcrs bank policyHash password
        encryptAlg srk salt).trace.all usesFixedSrkTemplate = true := by
  have hsess : (Rev2.policyPCRSession beh initialModuleState pcrs bank policyHash
      password.isSome).trace.all usesFixedSrkTemplate = true := by
    rw [List.all_eq_true]
    intro e he
    exact isSessionEv_usesFixedSrkTemplate e
      (List.all_eq_true.mp (rev2_session_trace_all beh initialModuleState pcrs bank
        policyHash password.isSome) e he)
  by_cases h0 : beh.dialOk = false
  · simp [Rev2.tpm2Unseal, openTPM, h0]
  by_cases h0b : beh.manufacturerOk = false
  · simp [Rev2.tpm2Unseal, openTPM, h0, h0b]
  have hopen : (openTPM beh).result = none := by
    simp [openTPM, h0, h0b]
  simp only [Rev2.tpm2Unseal]
  rw [hopen]
  rcases rev2_policyPCRSession_spec beh initialModuleState pcrs bank policyHash
      password.isSome with ⟨_, ho, _⟩ | ⟨_, _, hout⟩
  · rw [ho]
    simpa using hsess
  · rcases hout with ⟨d, ho⟩ | ⟨e, ho, _⟩
    · rw [ho]
      by_cases hcp : beh.createPrimaryOk = false <;>
        by_cases hload : beh.loadOk = false <;>
          rcases hu : beh.unsealResult with _ | u <;>
            simp [hcp, hload, hu, hsess, usesFixedSrkTemplate]
    · rw [ho]
      simpa using hsess

/-- Claim C6, amended (`getSRKTemplate` does select the RSA template for
"rsa" and the ECC template for "ecc" and fails explicitly on anything
else, but `tpm2Unseal` never calls it: every primary-key creation uses
the inline fixed RSA template, whatever the algorithm argument says): the
dispatch behavior of `getSRKTemplate`, plus the fact that every
`CreatePrimary` command issued by the second revision carries the fixed
inline RSA template. -/
theorem c6_amended_template_dispatch_unused :
    Rev2.getSRKTemplate "rsa" = TemplateResult.ok Rev2.srkTemplate ∧
    Rev2.getSRKTemplate "ecc" = TemplateResult.ok
      ⟨Alg.algECC, Alg.algSHA256, srkAttributes, [], none, some defaultECCParams⟩ ∧
    (∀ s, s ≠ "rsa" → s ≠ "ecc" →
      Rev2.getSRKTemplate s = TemplateResult.err
        "failed getting srk template because encryption algorithm is not ecc/rsa") ∧
    (∀ (beh : TPMBehavior) (publicBlob privateBlob : Bytes) (pcrs : List Nat)
        (bank : Alg) (policyHash : Bytes) (password : Option Bytes)
        (encryptAlg : String) (srk salt : Bytes) (t : Public),
      Ev.createPrimary t ∈
          (Rev2.tpm2Unseal beh publicBlob privateBlob pcrs bank policyHash password
            encryptAlg srk salt).trace →
      t = Rev2.srkTemplate) := by
  refine ⟨by decide, by decide, ?_, ?_⟩
  · intro s hs1 hs2
    simp [Rev2.getSRKTemplate, hs1, hs2]
  · intro beh publicBlob privateBlob pcrs bank policyHash password encryptAlg srk salt t hmem
    have := List.all_eq_true.mp
      (rev2_trace_fixed_template beh publicBlob privateBlob pcrs bank policyHash password
        encryptAlg srk salt) _ hmem
    simpa [usesFixedSrkTemplate] using this

/-- Counterexample for C6 as stated: an unseal attempt invoked with
algorithm "ecc" still issues its primary-key creation with the fixed RSA
template (the claim says the ECC template is used for "ecc"): the trace
contains the RSA-typed inline template and does not contain the ECC
template that `getSRKTemplate "ecc"` would have produced. -/
theorem c6_counterexample :
    Ev.createPrimary Rev2.srkTemplate ∈
      (Rev2.tpm2Unseal
          ⟨true, true, true, true, true, some [2], true, false, some [7], some [42]⟩
          [] [] [] Alg.algSHA256 [2] none "ecc" [] [9]).trace ∧
    Rev2.srkTemplate.type = Alg.algRSA ∧
    Ev.createPrimary
        ⟨Alg.algECC, Alg.algSHA256, srkAttributes, [], none, some defaultECCParams⟩ ∉
      (Rev2.tpm2Unseal
          ⟨true, true, true, true, true, some [2], true, false, some [7], some [42]⟩
          [] [] [] Alg.algSHA256 [2] none "ecc" [] [9]).trace := by
  refine ⟨by decide, by decide, by decide⟩

/-- Witness for the amended C6 at the concrete unsupported algorithm
name "aes" and at a concrete run with algorithm "ecc". -/
theorem c6_witness :
    ("aes" : String) ≠ "rsa" ∧ ("aes" : String) ≠ "ecc" ∧
    Rev2.getSRKTemplate "aes" = TemplateResult.err
      "failed getting srk template because encryption algorithm is not ecc/rsa" ∧
    Rev2.srkTemplate = Rev2.srkTemplate :=
  ⟨by decide, by decide,
    c6_amended_template_dispatch_unused.2.2.1 "aes" (by decide) (by decide),
    c6_amended_template_dispatch_unused.2.2.2
      ⟨true, true, true, true, true, some [2], true, false, some [7], some [42]⟩
      [] [] [] Alg.algSHA256 [2] none "ecc" [] [9] Rev2.srkTemplate (by decide)⟩

theorem rev2_outstanding (beh : TPMBehavior) (publicBlob privateBlob : Bytes)
    (pcrs : List Nat) (bank : Alg) (policyHash : Bytes) (password : Option Bytes)
    (encryptAlg : String) (srk salt : Bytes) :
    (Rev2.tpm2Unseal beh publicBlob privateBlob pcrs bank policyHash password
        encryptAlg srk salt).st.live.length =
      expectedOutstanding (Rev2.tpm2Unseal beh publicBlob privateBlob pcrs bank
        policyHash password encryptAlg srk salt).outcome := by
  by_cases h0 : beh.dialOk = false
  · simp [Rev2.tpm2Unseal, openTPM, h0, expectedOutstanding, policyStageErr,
      initialModuleState]
  by_cases h0b : beh.manufacturerOk = false
  · simp [Rev2.tpm2Unseal, openTPM, h0, h0b, expectedOutstanding, policyStageErr,
      initialModuleState]
  have hopen : (openTPM beh).result = none := by simp [openTPM, h0, h0b]
  simp only [Rev2.tpm2Unseal]
  rw [hopen]
  set sres := Rev2.policyPCRSession beh initialModuleState pcrs bank policyHash
    password.isSome with hsres
  rcases rev2_policyPCRSession_spec beh initialModuleState pcrs bank policyHash
      password.isSome with ⟨_, ho, hst⟩ | ⟨_, hst, hout⟩ <;>
    rw [← hsres] at * <;> simp only [initialModuleState] at hst
  · rw [ho]
    simp [hst, expectedOutstanding, policyStageErr, initialModuleState]
  · rcases hout with ⟨d, ho⟩ | ⟨e, ho, hpol⟩
    · rw [ho]
      by_cases hcp : beh.createPrimaryOk = false <;>
        by_cases hload : beh.loadOk = false <;>
          rcases hu : beh.unsealResult with _ | u <;>
            simp [hst, hcp, hload, hu, flushHandle, expectedOutstanding, policyStageErr,
              List.erase_cons, initialModuleState]
    · rw [ho]
      simp [hst, expectedOutstanding, hpol, initialModuleState]

theorem rev1_outstanding (beh : TPMBehavior) (publicBlob privateBlob : Bytes)
    (pcrs : List Nat) (bank : Alg) (policyHash : Bytes) (password : Option Bytes) :
    (Rev1.tpm2Unseal beh publicBlob privateBlob pcrs bank policyHash password).st.live.length =
      expectedOutstanding (Rev1.tpm2Unseal beh publicBlob privateBlob pcrs bank
        policyHash password).outcome := by
  by_cases h0 : beh.dialOk = false
  · simp [Rev1.tpm2Unseal, openTPM, h0, expectedOutstanding, policyStageErr,
      initialModuleState]
  by_cases h0b : beh.manufacturerOk = false
  · simp [Rev1.tpm2Unseal, openTPM, h0, h0b, expectedOutstanding, policyStageErr,
      initialModuleState]
  have hopen : (openTPM beh).result = none := by simp [openTPM, h0, h0b]
  simp only [Rev1.tpm2Unseal]
  rw [hopen]
  set sres := Rev1.policyPCRSession beh initialModuleState pcrs bank policyHash
    password.isSome with hsres
  rcases rev1_policyPCRSession_spec beh initialModuleState pcrs bank policyHash
      password.isSome with ⟨_, ho, hst⟩ | ⟨_, hst, hout⟩ <;>
    rw [← hsres] at * <;> simp only [initialModuleState] at hst
  · rw [ho]
    simp [hst, expectedOutstanding, policyStageErr, initialModuleState]
  · rcases hout with ⟨d, ho⟩ | ⟨e, ho, hpol⟩
    · rw [ho]
      by_cases hcp : beh.createPrimaryOk = false <;>
        by_cases hload : beh.loadOk = false <;>
          rcases hm : Rev1.tpmUnmarshalU16Bytes (password.getD []) with _ | buf <;>
            rcases hh : beh.hashResult with _ | dg <;>
              rcases hu : beh.unsealResult with _ | u <;>
                simp [hst, hcp, hload, hm, hh, hu, flushHandle, expectedOutstanding,
                  policyStageErr, List.erase_cons, initialModuleState]
    · rw [ho]
      simp [hst, expectedOutstanding, hpol, initialModuleState]

/-- Claim C1, amended (handles are torn down on every exit path except
failures inside the policy session build that occur after the session has
started — PCR assertion failure, password assertion failure, digest
retrieval failure, digest mismatch — where `policyPCRSession` returns the
null handle without flushing the session it started, so exactly that one
handle stays outstanding): in both revisions the number of outstanding
module handles after `tpm2Unseal` returns is zero on success and on
every failure outside the policy stage, and exactly one on policy-stage
failures. -/
theorem c1_amended_handle_release (beh : TPMBehavior) (publicBlob privateBlob : Bytes)
    (pcrs : List Nat) (bank : Alg) (policyHash : Bytes) (password : Option Bytes)
    (encryptAlg : String) (srk salt : Bytes) :
    (Rev2.tpm2Unseal beh publicBlob privateBlob pcrs bank policyHash password
        encryptAlg srk salt).st.live.length =
      expectedOutstanding (Rev2.tpm2Unseal beh publicBlob privateBlob pcrs bank
        policyHash password encryptAlg srk salt).outcome ∧
    (Rev1.tpm2Unseal beh publicBlob privateBlob pcrs bank policyHash password).st.live.length =
      expectedOutstanding (Rev1.tpm2Unseal beh publicBlob privateBlob pcrs bank
        policyHash password).outcome :=
  ⟨rev2_outstanding beh publicBlob privateBlob pcrs bank policyHash password
      encryptAlg srk salt,
    rev1_outstanding beh publicBlob privateBlob pcrs bank policyHash password⟩

/-- Counterexample for C1 as stated: an unseal attempt that fails on the
digest-mismatch failure point returns with the started session handle
still outstanding (the claim says the number of outstanding module
handles after `tpm2Unseal` returns is zero for that failure point). -/
theorem c1_counterexample :
    (Rev2.tpm2Unseal ⟨true, true, true, true, true, some [1], true, true, some [], some []⟩
        [] [] [7] Alg.algSHA256 [2] none "rsa" [] []).outcome =
      RunOutcome.err TpmErr.policyMismatch ∧
    (Rev2.tpm2Unseal ⟨true, true, true, true, true, some [1], true, true, some [], some []⟩
        [] [] [7] Alg.algSHA256 [2] none "rsa" [] []).st.live = [0] := by
  refine ⟨by decide, by decide⟩
